import Mathlib

/-!
# LibDS logger and 2016 protocol address list

A shallow embedding of `src/lib/LibDS/src/Core/LoggerCommon.cpp` and of
`DS_Protocol2016::defaultRobotAddress` (`src/lib/LibDS/src/Protocols/Protocol2016.cpp`).

Conventions of the embedding:

* a `String` stands for the NUL-terminated local-8-bit byte string that `PRINT`
  hands to `fprintf` (one `Char` per byte);
* the static variables of `LoggerCommon.cpp` are the first fields of `Logger`, the
  remaining fields record what the C library calls did (stream contents, `fopen`
  and `fclose` calls);
* everything the code asks of Qt or of the operating system during one call
  (clock, directory listing, paths, date strings, result of `fopen`) is read from
  an `Env` value passed to that call.
-/

namespace LibDS

/-! ## Strings and numbers -/

/-- The call `QString::number (n)` in base 10, for a non-negative `n`. -/
def QString_number (n : Nat) : String := Nat.repr n

/-- The call `QString::arg (a, fieldWidth, 10, fillChar)` for an unsigned `a` and a positive
`fieldWidth`: the decimal text of `a`, right-aligned, padded on the left with
`fillChar` up to `fieldWidth` characters. -/
def argPadded (a fieldWidth : Nat) (fillChar : Char) : String :=
  String.mk (List.leftpad fieldWidth fillChar (QString_number a).data)

/-- The call `QString::toUpper()`, on the characters of the local 8-bit text. -/
def QString_toUpper (s : String) : String := String.mk (s.data.map Char.toUpper)

/-- The call `QString::toLower()`, on the characters of the local 8-bit text. -/
def QString_toLower (s : String) : String := String.mk (s.data.map Char.toLower)

/-- The function `REPEAT (input, n)`: the loop appends `input` to an empty string `n` times. -/
def REPEAT (input : String) : Nat → String
  | 0 => ""
  | n + 1 => REPEAT input n ++ input

/-- The `fprintf` conversion `%-Ns`: the argument in full, then spaces up to the
field width `N`. -/
def fmtLeft (width : Nat) (s : String) : String :=
  s ++ String.mk (List.replicate (width - s.length) ' ')

/-- The format `PRINT_FMT`, that is `"%-14s %-13s %-12s\n"`, applied to three strings. -/
def PRINT_FMT (a b c : String) : String :=
  fmtLeft 14 a ++ " " ++ fmtLeft 13 b ++ " " ++ fmtLeft 12 c ++ "\n"

/-! ## Environment and state -/

/-- The type `QtMsgType` is a C enumeration; a value of the type is an integer. -/
abbrev QtMsgType := Int

def QtDebugMsg : QtMsgType := 0
def QtWarningMsg : QtMsgType := 1
def QtCriticalMsg : QtMsgType := 2
def QtFatalMsg : QtMsgType := 3

/-- A `FILE*` that is not `NULL`: a file opened by `fopen`, or `COUT` (`stderr`). -/
inductive FilePtr where
  | file (path : String)
  | cout
  deriving DecidableEq

/-- What Qt and the operating system answer during one call into the logger. -/
structure Env where
  /-- value of `TIMER.elapsed()`, milliseconds -/
  elapsed : Nat
  /-- value of `QDir (DS_LOGS_PATH()).entryList (QStringList (filters)).count()` -/
  count : Nat
  /-- value of `QDir::homePath()` -/
  homePath : String
  /-- value of `QDir::absolutePath()` for a directory given by its path -/
  absolutePath : String → String
  /-- value of `QDir::tempPath()` -/
  tempPath : String
  /-- value of `GET_DATE_TIME ("(MMM dd yyyy - HH_mm_ss)")` -/
  fileStamp : String
  /-- value of `GET_DATE_TIME ("MMM dd yyyy - HH:mm:ss AP")` -/
  headerStamp : String
  /-- value of `qApp->applicationName()` -/
  appName : String
  /-- value of `qApp->applicationVersion()` -/
  appVersion : String
  /-- value of `QSysInfo::prettyProductName()`, or the platform name of the older Qt branch -/
  sysName : String
  /-- whether `fopen` returns a stream -/
  fopenOk : Bool
  /-- whether `DS_MESSAGE_HANDLER` is the installed Qt message handler -/
  handlerInstalled : Bool

/-- The static variables of `LoggerCommon.cpp` and the streams they act on. -/
structure Logger where
  /-- the variable `static FILE* DUMP` (`none` is `NULL`) -/
  DUMP : Option FilePtr
  logsFile : String
  consoleDump : String
  CLOSED : Bool
  INITIALIZED : Bool
  /-- number of `TIMER.start()` calls -/
  timerStarts : Nat
  /-- bytes written to the file that `fopen` opened -/
  fileOut : String
  /-- bytes written to `stderr` -/
  errOut : String
  /-- the paths passed to `fopen`, in call order -/
  fopenCalls : List String
  /-- the streams passed to `fclose`, in call order -/
  fcloseCalls : List FilePtr

/-- The state at program start: `DUMP` is `NULL`, both flags are `false`. -/
def Logger.initial : Logger :=
  { DUMP := none, logsFile := "", consoleDump := "", CLOSED := false, INITIALIZED := false,
    timerStarts := 0, fileOut := "", errOut := "", fopenCalls := [], fcloseCalls := [] }

/-- The call `fprintf (stream, ...)` with the formatted text `text`. -/
def fprintf (stream : FilePtr) (text : String) (s : Logger) : Logger :=
  match stream with
  | .file _ => { s with fileOut := s.fileOut ++ text }
  | .cout => { s with errOut := s.errOut ++ text }

/-- The call `fprintf (DUMP, ...)`; nothing is modelled for a `NULL` stream. -/
def fprintfDump (text : String) (s : Logger) : Logger :=
  match s.DUMP with
  | some stream => fprintf stream text s
  | none => s

/-- The call `fopen (path, "w")`: on success the file is created empty. -/
def fopenW (env : Env) (path : String) (s : Logger) : Logger :=
  if env.fopenOk then
    { s with DUMP := some (.file path), fileOut := "", fopenCalls := s.fopenCalls ++ [path] }
  else
    { s with DUMP := none, fopenCalls := s.fopenCalls ++ [path] }

/-- The call `fclose (DUMP)`. -/
def fcloseDump (s : Logger) : Logger :=
  match s.DUMP with
  | some stream => { s with fcloseCalls := s.fcloseCalls ++ [stream] }
  | none => s

/-! ## LoggerCommon.cpp -/

/-- The function `ADD_HEADER (title)`. -/
def ADD_HEADER (title : String) (s : Logger) : Logger :=
  let s := fprintfDump (REPEAT "-" 72 ++ "\n") s
  let s := fprintfDump (QString_toUpper title ++ "\n") s
  let s := fprintfDump (REPEAT "-" 72 ++ "\n") s
  fprintfDump ("" ++ "\n") s

/-- The function `DS_LOGS_EXTENSION()`. -/
def DS_LOGS_EXTENSION : String := "qdslog"

/-- The function `DS_LOGS_PATH()`: the directory `<home>/.<application name, lower case>/Logs/`
(created when absent), as an absolute path. -/
def DS_LOGS_PATH (env : Env) : String :=
  env.absolutePath (env.homePath ++ "/." ++ QString_toLower env.appName ++ "/Logs/")

/-- The function `DS_LOG_FILE()`. -/
def DS_LOG_FILE (s : Logger) : String := s.logsFile

/-- The function `DS_CONSOLE_LOG()`. -/
def DS_CONSOLE_LOG (s : Logger) : String := s.consoleDump

/-- The log number string of `INIT_LOGGER`: `QString::number (count)` with `"000"`,
`"00"` or `"0"` prepended below 10, 100 and 1000. -/
def logNumber (count : Nat) : String :=
  let logNumber := QString_number count
  if count < 10 then "000" ++ logNumber
  else if count < 100 then "00" ++ logNumber
  else if count < 1000 then "0" ++ logNumber
  else logNumber

/-- The function `INIT_LOGGER()`. -/
def INIT_LOGGER (env : Env) (s : Logger) : Logger :=
  let s := { s with timerStarts := s.timerStarts + 1 }
  /- Set file names -/
  let s := { s with consoleDump := env.tempPath ++ "/QDriverStation.log" }
  let s := { s with logsFile := DS_LOGS_PATH env ++ "/" ++ "Log " ++ logNumber env.count ++ " "
                      ++ env.fileStamp ++ "." ++ DS_LOGS_EXTENSION }
  /- Open the dump file -/
  let s := fopenW env (DS_CONSOLE_LOG s) s
  let s := { s with DUMP := if s.DUMP.isNone then some FilePtr.cout else s.DUMP }
  /- Add log header -/
  let s := ADD_HEADER "Start of log" s
  /- Append app info -/
  let s := fprintfDump ("Log created on:      " ++ env.headerStamp ++ "\n") s
  let s := fprintfDump ("Operating System:    " ++ env.sysName ++ "\n") s
  let s := fprintfDump ("Application name:    " ++ env.appName ++ "\n") s
  let s := fprintfDump ("Application version: " ++ env.appVersion ++ "\n\n") s
  /- Start the table header -/
  let s := fprintfDump (REPEAT "-" 72 ++ "\n") s
  let s := fprintfDump (PRINT_FMT "ELAPSED TIME" "ERROR LEVEL" "MESSAGE") s
  let s := fprintfDump (REPEAT "-" 72 ++ "\n") s
  { s with INITIALIZED := true }

/-- The time column of `DS_MESSAGE_HANDLER`, from the value of `TIMER.elapsed()`.
The value is stored in a `quint32`; `"%1:%2.%3"` receives the minutes and the
seconds with field width 2 and fill character `'0'`, and the first character of
`QString::number (msec)`. -/
def elapsedTime (elapsed : Nat) : String :=
  let msec := elapsed % 2 ^ 32
  let secs := msec / 1000
  let mins := (secs / 60) % 60
  let secs := secs % 60
  let msec := msec % 1000
  argPadded mins 2 '0' ++ ":" ++ argPadded secs 2 '0' ++ "."
    ++ String.singleton ((QString_number msec).get 0)

/-- The `switch (type)` of `DS_MESSAGE_HANDLER`. -/
def levelOf (type : QtMsgType) : String :=
  if type = QtDebugMsg then "DEBUG"
  else if type = QtWarningMsg then "WARNING"
  else if type = QtCriticalMsg then "CRITICAL"
  else if type = QtFatalMsg then "FATAL"
  else "SYSTEM"

/-- The function `DS_MESSAGE_HANDLER (type, context, data)`. -/
def DS_MESSAGE_HANDLER (env : Env) (type : QtMsgType) (data : String) (s : Logger) : Logger :=
  /- Log already closed - quit -/
  if s.CLOSED then s
  else
    /- First call, create log file -/
    let s := if !s.INITIALIZED then INIT_LOGGER env s else s
    let time := elapsedTime env.elapsed
    let level := levelOf type
    /- Write all logs to the dump file -/
    let s := fprintfDump (PRINT_FMT time level data) s
    let s := fprintf FilePtr.cout (PRINT_FMT time level data) s
    /- fflush (DUMP) leaves the bytes written unchanged -/
    s

/-- The statement `qDebug() << text`: the message goes to the installed message handler, which is
`DS_MESSAGE_HANDLER` or the default handler of Qt (a line on `stderr`). -/
def qDebug (env : Env) (text : String) (s : Logger) : Logger :=
  if env.handlerInstalled then DS_MESSAGE_HANDLER env QtDebugMsg text s
  else fprintf FilePtr.cout (text ++ "\n") s

/-- The function `DS_CLOSE_CONSOLE_LOG()`. -/
def DS_CLOSE_CONSOLE_LOG (env : Env) (s : Logger) : Logger :=
  if s.DUMP.isSome && s.INITIALIZED && !s.CLOSED then
    let s := qDebug env "Log buffer closed" s
    let s := { s with CLOSED := true, INITIALIZED := false }
    fcloseDump s
  else s

/-! ## Protocol2016.cpp -/

/-- The function `DS_Protocol2016::defaultRobotAddress()`. The team number `team()` and the
two overloads of `DS_GetStaticIp`, which are declared in other files, are
arguments: `staticIp3 net team host` and `staticIp2 team host`. -/
def defaultRobotAddress (staticIp3 : Int → Int → Int → String)
    (staticIp2 : Int → Int → String) (team : Int) : List String :=
  let list : List String := []
  let list := list ++ ["roboRIO-" ++ toString team ++ "-FRC.local"]
  let list := list ++ ["roboRIO-" ++ toString team ++ "-FRC._ni._tcp.local"]
  let list := list ++ [staticIp3 172 team 2]
  let list := list ++ [staticIp2 team 2]
  let list := list ++ ["127.0.0.1"]
  list

/-- Modelled from the spec: `DS_GetStaticIp (net, team, host)` is not part of the sources
at hand; the spec calls its results computed static-IP forms obtained by
substitution into a fixed template. The template taken here is the dotted form
`net.te.am.host`, with `te` and `am` the upper and lower two decimal digits of the
team number. -/
def DS_GetStaticIp (net team host : Int) : String :=
  toString net ++ "." ++ toString (team / 100) ++ "." ++ toString (team % 100) ++ "."
    ++ toString host

/-! ## Runs of the logger -/

/-- One call of `DS_MESSAGE_HANDLER`: the answers of the environment during the call,
the message type and the message. -/
structure Emit where
  env : Env
  type : QtMsgType
  data : String

/-- A sequence of `DS_MESSAGE_HANDLER` calls, first call first. -/
def emitAll : List Emit → Logger → Logger
  | [], s => s
  | c :: cs, s => emitAll cs (DS_MESSAGE_HANDLER c.env c.type c.data s)

/-- A sequence of `DS_CLOSE_CONSOLE_LOG` calls, first call first. -/
def closeAll : List Env → Logger → Logger
  | [], s => s
  | env :: envs, s => closeAll envs (DS_CLOSE_CONSOLE_LOG env s)

/-- A call into the logger from the application. -/
inductive Call where
  | emit (env : Env) (type : QtMsgType) (data : String)
  | close (env : Env)

/-- The effect of one call. -/
def Call.step : Call → Logger → Logger
  | .emit env type data, s => DS_MESSAGE_HANDLER env type data s
  | .close env, s => DS_CLOSE_CONSOLE_LOG env s

/-- Any interleaving of calls, first call first. -/
def runCalls : List Call → Logger → Logger
  | [], s => s
  | c :: cs, s => runCalls cs (c.step s)

/-! ## The texts the claims speak of -/

/-- The row of one call: the three columns of `DS_MESSAGE_HANDLER` under `PRINT_FMT`. -/
def Emit.row (c : Emit) : String :=
  PRINT_FMT (elapsedTime c.env.elapsed) (levelOf c.type) c.data

/-- The rows of a sequence of calls, in call order. -/
def rows : List Emit → String
  | [] => ""
  | c :: cs => c.row ++ rows cs

/-- The rows of a sequence of calls with every row written twice in a row. -/
def rowsTwice : List Emit → String
  | [] => ""
  | c :: cs => c.row ++ c.row ++ rowsTwice cs

/-- The header block: banner, title, banner, blank line, four metadata lines, blank
line, banner, column titles, banner. -/
def headerBlock (env : Env) : String :=
  REPEAT "-" 72 ++ "\n" ++ "START OF LOG" ++ "\n" ++ REPEAT "-" 72 ++ "\n" ++ "\n"
    ++ "Log created on:      " ++ env.headerStamp ++ "\n"
    ++ "Operating System:    " ++ env.sysName ++ "\n"
    ++ "Application name:    " ++ env.appName ++ "\n"
    ++ "Application version: " ++ env.appVersion ++ "\n\n"
    ++ REPEAT "-" 72 ++ "\n"
    ++ PRINT_FMT "ELAPSED TIME" "ERROR LEVEL" "MESSAGE"
    ++ REPEAT "-" 72 ++ "\n"

/-- The bytes on the stream that `DUMP` points to. -/
def dumpOut (s : Logger) : String :=
  match s.DUMP with
  | some (.file _) => s.fileOut
  | some .cout => s.errOut
  | none => ""

/-- The leading decimal digit of a number below 1000. -/
def leadingDigit (r : Nat) : Nat :=
  if r < 10 then r else if r < 100 then r / 10 else r / 100

/-- The phase of the session: 0 before initialisation, 1 while the log is open, 2 once
it is closed. -/
def phase (s : Logger) : Nat :=
  if s.CLOSED then 2 else if s.INITIALIZED then 1 else 0

/-- What holds of every state the logger reaches from `Logger.initial`. -/
def Consistent (s : Logger) : Prop :=
  (s.CLOSED = true → s.INITIALIZED = false)
  ∧ (s.INITIALIZED = true → s.DUMP.isSome = true)
  ∧ s.timerStarts = (if phase s = 0 then 0 else 1)
  ∧ s.fopenCalls.length = s.timerStarts

/-- A sample environment: 9 log files present, `fopen` succeeds, the handler is installed. -/
def sampleEnv : Env :=
  { elapsed := 125340, count := 9, homePath := "/home/ds", absolutePath := fun p => String.mk p.data.dropLast,
    tempPath := "/tmp", fileStamp := "(Jan 02 2016 - 10_20_30)",
    headerStamp := "Jan 02 2016 - 10:20:30 AM", appName := "QDriverStation",
    appVersion := "16.01", sysName := "Ubuntu 14.04", fopenOk := true, handlerInstalled := true }
/-- The state after one message under `sampleEnv`: the log is open. -/
def sampleOpen : Logger :=
  DS_MESSAGE_HANDLER sampleEnv QtDebugMsg "hello" Logger.initial

/-- The state after one message and one close under `sampleEnv`. -/
def sampleClosed : Logger :=
  DS_CLOSE_CONSOLE_LOG sampleEnv sampleOpen

/-- One call under `sampleEnv` with `fopen` failing. -/
def sampleFallback : Emit :=
  { env := { sampleEnv with fopenOk := false }, type := QtDebugMsg, data := "hello" }

/-! ## Decimal digits -/

theorem toDigitsCore_fuel (f : Nat) : ∀ (g n : Nat) (ds : List Char), n < f → n < g →
    Nat.toDigitsCore 10 f n ds = Nat.toDigitsCore 10 g n ds := by
  induction f with
  | zero => intro g n ds h; omega
  | succ f ih =>
    intro g n ds hf hg
    cases g with
    | zero => omega
    | succ g =>
      simp only [Nat.toDigitsCore]
      split
      · rfl
      · apply ih <;> omega

theorem toDigitsCore_acc (f : Nat) : ∀ (n : Nat) (ds : List Char),
    Nat.toDigitsCore 10 f n ds = Nat.toDigitsCore 10 f n [] ++ ds := by
  induction f with
  | zero => intro n ds; simp [Nat.toDigitsCore]
  | succ f ih =>
    intro n ds
    simp only [Nat.toDigitsCore]
    split
    · simp
    · rw [ih _ (_ :: ds), ih _ [_]]; simp

theorem toDigits_lt_ten (n : Nat) (h : n < 10) : Nat.toDigits 10 n = [Nat.digitChar n] := by
  simp [Nat.toDigits, Nat.toDigitsCore, Nat.mod_eq_of_lt h, Nat.div_eq_of_lt h]

theorem toDigits_ten_le (n : Nat) (h : 10 ≤ n) :
    Nat.toDigits 10 n = Nat.toDigits 10 (n / 10) ++ [Nat.digitChar (n % 10)] := by
  unfold Nat.toDigits
  rw [Nat.toDigitsCore]
  have : n / 10 ≠ 0 := by omega
  simp only [this, if_false]
  rw [toDigitsCore_acc, toDigitsCore_fuel n (n / 10 + 1) (n / 10) [] (by omega) (by omega)]

theorem toDigits_two (n : Nat) (h1 : 10 ≤ n) (h2 : n < 100) :
    Nat.toDigits 10 n = [Nat.digitChar (n / 10), Nat.digitChar (n % 10)] := by
  rw [toDigits_ten_le n h1, toDigits_lt_ten (n / 10) (by omega)]; rfl

theorem toDigits_three (n : Nat) (h1 : 100 ≤ n) (h2 : n < 1000) :
    Nat.toDigits 10 n
      = [Nat.digitChar (n / 100), Nat.digitChar (n / 10 % 10), Nat.digitChar (n % 10)] := by
  rw [toDigits_ten_le n (by omega), toDigits_two (n / 10) (by omega) (by omega)]
  have : n / 10 / 10 = n / 100 := by omega
  simp [this]

theorem toDigits_four (n : Nat) (h1 : 1000 ≤ n) (h2 : n < 10000) :
    Nat.toDigits 10 n
      = [Nat.digitChar (n / 1000), Nat.digitChar (n / 100 % 10), Nat.digitChar (n / 10 % 10),
         Nat.digitChar (n % 10)] := by
  rw [toDigits_ten_le n (by omega), toDigits_three (n / 10) (by omega) (by omega)]
  have e1 : n / 10 / 100 = n / 1000 := by omega
  have e2 : n / 10 / 10 % 10 = n / 100 % 10 := by omega
  simp [e1, e2]

theorem toDigits_length_pos (n : Nat) : 1 ≤ (Nat.toDigits 10 n).length := by
  rcases Nat.lt_or_ge n 10 with h | h
  · simp [toDigits_lt_ten n h]
  · simp [toDigits_ten_le n h]

theorem toDigits_length_five (n : Nat) (h : 10000 ≤ n) : 5 ≤ (Nat.toDigits 10 n).length := by
  rw [toDigits_ten_le n (by omega), toDigits_ten_le (n / 10) (by omega),
    toDigits_ten_le (n / 10 / 10) (by omega), toDigits_ten_le (n / 10 / 10 / 10) (by omega)]
  have := toDigits_length_pos (n / 10 / 10 / 10 / 10)
  simp only [List.length_append, List.length_singleton]
  omega

theorem QString_number_data (n : Nat) : (QString_number n).data = Nat.toDigits 10 n := rfl

theorem QString_number_length (n : Nat) :
    (QString_number n).length = (Nat.toDigits 10 n).length := rfl

theorem logNumber_lt_ten (count : Nat) (h : count < 10) :
    (logNumber count).data = ['0', '0', '0', Nat.digitChar count] := by
  have e : logNumber count = "000" ++ QString_number count := by simp [logNumber, h]
  rw [e, String.data_append, QString_number_data, toDigits_lt_ten count h]; rfl

theorem logNumber_lt_hundred (count : Nat) (h1 : 10 ≤ count) (h2 : count < 100) :
    (logNumber count).data = ['0', '0', Nat.digitChar (count / 10), Nat.digitChar (count % 10)] := by
  have e : logNumber count = "00" ++ QString_number count := by
    simp [logNumber, Nat.not_lt.mpr h1, h2]
  rw [e, String.data_append, QString_number_data, toDigits_two count h1 h2]; rfl

theorem logNumber_lt_thousand (count : Nat) (h1 : 100 ≤ count) (h2 : count < 1000) :
    (logNumber count).data
      = ['0', Nat.digitChar (count / 100), Nat.digitChar (count / 10 % 10),
          Nat.digitChar (count % 10)] := by
  have e : logNumber count = "0" ++ QString_number count := by
    simp [logNumber, show ¬ count < 10 by omega, Nat.not_lt.mpr h1, h2]
  rw [e, String.data_append, QString_number_data, toDigits_three count h1 h2]; rfl

theorem logNumber_thousand_le (count : Nat) (h : 1000 ≤ count) :
    logNumber count = QString_number count := by
  simp [logNumber, show ¬ count < 10 by omega, show ¬ count < 100 by omega, Nat.not_lt.mpr h]

theorem argPadded_two (n : Nat) (h : n < 100) :
    argPadded n 2 '0' = String.mk [Nat.digitChar (n / 10), Nat.digitChar (n % 10)] := by
  unfold argPadded
  rw [QString_number_data]
  rcases Nat.lt_or_ge n 10 with h1 | h1
  · have e1 : n / 10 = 0 := by omega
    have e2 : n % 10 = n := by omega
    rw [toDigits_lt_ten n h1, e1, e2]; rfl
  · rw [toDigits_two n h1 h]; rfl

theorem get_zero_cons (c : Char) (cs : List Char) : (String.mk (c :: cs)).get 0 = c := by
  simp [String.get, String.utf8GetAux]

theorem QString_number_first (r : Nat) (h : r < 1000) :
    (QString_number r).get 0 = Nat.digitChar (leadingDigit r) := by
  have e : QString_number r = String.mk (Nat.toDigits 10 r) := rfl
  rw [e]
  unfold leadingDigit
  rcases Nat.lt_or_ge r 10 with h1 | h1
  · rw [toDigits_lt_ten r h1, get_zero_cons]; simp [h1]
  rcases Nat.lt_or_ge r 100 with h2 | h2
  · rw [toDigits_two r h1 h2, get_zero_cons]; simp [Nat.not_lt.mpr h1, h2]
  · rw [toDigits_three r h2 h, get_zero_cons]; simp [Nat.not_lt.mpr h1, Nat.not_lt.mpr h2]

theorem title_toUpper : QString_toUpper "Start of log" = "START OF LOG" := by decide

theorem INIT_LOGGER_ok (env : Env) (s : Logger) (h : env.fopenOk = true) :
    INIT_LOGGER env s =
      { s with
        DUMP := some (.file (env.tempPath ++ "/QDriverStation.log"))
        logsFile := DS_LOGS_PATH env ++ "/" ++ "Log " ++ logNumber env.count ++ " "
                      ++ env.fileStamp ++ "." ++ DS_LOGS_EXTENSION
        consoleDump := env.tempPath ++ "/QDriverStation.log"
        INITIALIZED := true
        timerStarts := s.timerStarts + 1
        fileOut := headerBlock env
        fopenCalls := s.fopenCalls ++ [env.tempPath ++ "/QDriverStation.log"] } := by
  simp [INIT_LOGGER, fopenW, h, ADD_HEADER, fprintfDump, fprintf, DS_CONSOLE_LOG, headerBlock,
    title_toUpper, String.append_assoc, -String.reduceAppend]

theorem INIT_LOGGER_fallback (env : Env) (s : Logger) (h : env.fopenOk = false) :
    INIT_LOGGER env s =
      { s with
        DUMP := some .cout
        logsFile := DS_LOGS_PATH env ++ "/" ++ "Log " ++ logNumber env.count ++ " "
                      ++ env.fileStamp ++ "." ++ DS_LOGS_EXTENSION
        consoleDump := env.tempPath ++ "/QDriverStation.log"
        INITIALIZED := true
        timerStarts := s.timerStarts + 1
        errOut := s.errOut ++ headerBlock env
        fopenCalls := s.fopenCalls ++ [env.tempPath ++ "/QDriverStation.log"] } := by
  simp [INIT_LOGGER, fopenW, h, ADD_HEADER, fprintfDump, fprintf, DS_CONSOLE_LOG, headerBlock,
    title_toUpper, String.append_assoc, -String.reduceAppend]

theorem handler_closed (env : Env) (type : QtMsgType) (data : String) (s : Logger)
    (h : s.CLOSED = true) : DS_MESSAGE_HANDLER env type data s = s := by
  simp [DS_MESSAGE_HANDLER, h]

theorem handler_open (env : Env) (type : QtMsgType) (data : String) (s : Logger)
    (d : FilePtr) (hC : s.CLOSED = false) (hI : s.INITIALIZED = true) (hD : s.DUMP = some d) :
    DS_MESSAGE_HANDLER env type data s
      = fprintf .cout (PRINT_FMT (elapsedTime env.elapsed) (levelOf type) data)
          (fprintf d (PRINT_FMT (elapsedTime env.elapsed) (levelOf type) data) s) := by
  simp [DS_MESSAGE_HANDLER, hC, hI, fprintfDump, hD]

theorem handler_first (env : Env) (type : QtMsgType) (data : String) (s : Logger)
    (hC : s.CLOSED = false) (hI : s.INITIALIZED = false) :
    DS_MESSAGE_HANDLER env type data s
      = DS_MESSAGE_HANDLER env type data (INIT_LOGGER env s) := by
  by_cases h : env.fopenOk = true
  · simp [DS_MESSAGE_HANDLER, hC, hI, INIT_LOGGER_ok env s h]
  · simp at h
    simp [DS_MESSAGE_HANDLER, hC, hI, INIT_LOGGER_fallback env s h]

/-! ## Control state -/

@[simp]
theorem fprintf_CLOSED (d : FilePtr) (t : String) (s : Logger) :
    (fprintf d t s).CLOSED = s.CLOSED := by cases d <;> rfl

@[simp]
theorem fprintf_INITIALIZED (d : FilePtr) (t : String) (s : Logger) :
    (fprintf d t s).INITIALIZED = s.INITIALIZED := by cases d <;> rfl

@[simp]
theorem fprintf_DUMP (d : FilePtr) (t : String) (s : Logger) :
    (fprintf d t s).DUMP = s.DUMP := by cases d <;> rfl

@[simp]
theorem fprintf_timerStarts (d : FilePtr) (t : String) (s : Logger) :
    (fprintf d t s).timerStarts = s.timerStarts := by cases d <;> rfl

@[simp]
theorem fprintf_fopenCalls (d : FilePtr) (t : String) (s : Logger) :
    (fprintf d t s).fopenCalls = s.fopenCalls := by cases d <;> rfl

@[simp]
theorem fprintf_fcloseCalls (d : FilePtr) (t : String) (s : Logger) :
    (fprintf d t s).fcloseCalls = s.fcloseCalls := by cases d <;> rfl

theorem INIT_LOGGER_ctl (env : Env) (s : Logger) :
    (INIT_LOGGER env s).CLOSED = s.CLOSED
    ∧ (INIT_LOGGER env s).INITIALIZED = true
    ∧ (INIT_LOGGER env s).DUMP
        = some (if env.fopenOk then FilePtr.file (env.tempPath ++ "/QDriverStation.log")
            else FilePtr.cout)
    ∧ (INIT_LOGGER env s).timerStarts = s.timerStarts + 1
    ∧ (INIT_LOGGER env s).fopenCalls = s.fopenCalls ++ [env.tempPath ++ "/QDriverStation.log"]
    ∧ (INIT_LOGGER env s).fcloseCalls = s.fcloseCalls := by
  by_cases h : env.fopenOk = true
  · rw [INIT_LOGGER_ok env s h]; simp [h]
  · simp at h
    rw [INIT_LOGGER_fallback env s h]; simp [h]

theorem handler_init_ctl (env : Env) (type : QtMsgType) (data : String) (s : Logger)
    (hC : s.CLOSED = false) (hI : s.INITIALIZED = false) :
    (DS_MESSAGE_HANDLER env type data s).CLOSED = false
    ∧ (DS_MESSAGE_HANDLER env type data s).INITIALIZED = true
    ∧ (DS_MESSAGE_HANDLER env type data s).DUMP.isSome = true
    ∧ (DS_MESSAGE_HANDLER env type data s).timerStarts = s.timerStarts + 1
    ∧ (DS_MESSAGE_HANDLER env type data s).fopenCalls
        = s.fopenCalls ++ [env.tempPath ++ "/QDriverStation.log"]
    ∧ (DS_MESSAGE_HANDLER env type data s).fcloseCalls = s.fcloseCalls := by
  obtain ⟨c1, c2, c3, c4, c5, c6⟩ := INIT_LOGGER_ctl env s
  rw [handler_first env type data s hC hI,
    handler_open env type data (INIT_LOGGER env s) _ (c1.trans hC) c2 c3]
  simp [c1, c2, c3, c4, c5, c6, hC]

theorem close_skip (env : Env) (s : Logger)
    (h : (s.DUMP.isSome && s.INITIALIZED && !s.CLOSED) = false) :
    DS_CLOSE_CONSOLE_LOG env s = s := by
  simp [DS_CLOSE_CONSOLE_LOG, h]

theorem close_of_closed (env : Env) (s : Logger) (h : s.CLOSED = true) :
    DS_CLOSE_CONSOLE_LOG env s = s := by
  apply close_skip; simp [h]

theorem close_run (env : Env) (s : Logger) (d : FilePtr)
    (hD : s.DUMP = some d) (hI : s.INITIALIZED = true) (hC : s.CLOSED = false) :
    (DS_CLOSE_CONSOLE_LOG env s).CLOSED = true
    ∧ (DS_CLOSE_CONSOLE_LOG env s).INITIALIZED = false
    ∧ (DS_CLOSE_CONSOLE_LOG env s).DUMP = s.DUMP
    ∧ (DS_CLOSE_CONSOLE_LOG env s).timerStarts = s.timerStarts
    ∧ (DS_CLOSE_CONSOLE_LOG env s).fopenCalls = s.fopenCalls
    ∧ (DS_CLOSE_CONSOLE_LOG env s).fcloseCalls = s.fcloseCalls ++ [d] := by
  have hq : (qDebug env "Log buffer closed" s).DUMP = some d
      ∧ (qDebug env "Log buffer closed" s).timerStarts = s.timerStarts
      ∧ (qDebug env "Log buffer closed" s).fopenCalls = s.fopenCalls
      ∧ (qDebug env "Log buffer closed" s).fcloseCalls = s.fcloseCalls := by
    unfold qDebug
    split
    · rw [handler_open env _ _ s d hC hI hD]; simp [hD]
    · simp [hD]
  obtain ⟨q1, q2, q3, q4⟩ := hq
  simp [DS_CLOSE_CONSOLE_LOG, hD, hI, hC, fcloseDump, q1, q2, q3, q4]

theorem closeAll_of_closed (envs : List Env) : ∀ (s : Logger), s.CLOSED = true →
    closeAll envs s = s := by
  induction envs with
  | nil => intro s _; rfl
  | cons env envs ih =>
    intro s h
    simp only [closeAll]
    rw [close_of_closed env s h]
    exact ih s h

theorem closeAll_fclose (envs : List Env) : ∀ (s : Logger),
    (closeAll envs s).fcloseCalls.length ≤ s.fcloseCalls.length + 1 := by
  induction envs with
  | nil => intro s; simp [closeAll]
  | cons env envs ih =>
    intro s
    simp only [closeAll]
    by_cases g : (s.DUMP.isSome && s.INITIALIZED && !s.CLOSED) = true
    · simp only [Bool.and_eq_true, Bool.not_eq_true', Option.isSome_iff_exists] at g
      obtain ⟨⟨⟨d, hD⟩, hI⟩, hC⟩ := g
      obtain ⟨c1, _, _, _, _, c6⟩ := close_run env s d hD hI hC
      rw [closeAll_of_closed envs _ c1, c6]
      simp
    · rw [close_skip env s (by simpa using g)]
      exact ih s

theorem close_twice (env1 env2 : Env) (s : Logger) :
    DS_CLOSE_CONSOLE_LOG env2 (DS_CLOSE_CONSOLE_LOG env1 s) = DS_CLOSE_CONSOLE_LOG env1 s := by
  by_cases g : (s.DUMP.isSome && s.INITIALIZED && !s.CLOSED) = true
  · simp only [Bool.and_eq_true, Bool.not_eq_true', Option.isSome_iff_exists] at g
    obtain ⟨⟨⟨d, hD⟩, hI⟩, hC⟩ := g
    exact close_of_closed env2 _ (close_run env1 s d hD hI hC).1
  · rw [close_skip env1 s (by simpa using g)]
    exact close_skip env2 s (by simpa using g)

theorem phase_le_two (s : Logger) : phase s ≤ 2 := by
  unfold phase; split <;> [skip; split] <;> omega

theorem step_consistent (c : Call) (s : Logger) (h : Consistent s) :
    Consistent (c.step s) ∧ phase s ≤ phase (c.step s) := by
  obtain ⟨h1, h2, h3, h4⟩ := h
  cases c with
  | emit env type data =>
    simp only [Call.step]
    cases hC : s.CLOSED with
    | true => rw [handler_closed env type data s hC]; exact ⟨⟨h1, h2, h3, h4⟩, le_refl _⟩
    | false =>
      cases hI : s.INITIALIZED with
      | true =>
        obtain ⟨d, hD⟩ := Option.isSome_iff_exists.mp (h2 hI)
        rw [handler_open env type data s d hC hI hD]
        simp [Consistent, phase, hC, hI, hD] at h3 h4 ⊢
        exact ⟨h3, h4⟩
      | false =>
        obtain ⟨c1, c2, c3, c4, c5, c6⟩ := handler_init_ctl env type data s hC hI
        simp [Consistent, phase, hC, hI] at h3 h4 ⊢
        simp [c1, c2, c3, c4, c5, h3, h4]
  | close env =>
    simp only [Call.step]
    by_cases g : (s.DUMP.isSome && s.INITIALIZED && !s.CLOSED) = true
    · simp only [Bool.and_eq_true, Bool.not_eq_true', Option.isSome_iff_exists] at g
      obtain ⟨⟨⟨d, hD⟩, hI⟩, hC⟩ := g
      obtain ⟨c1, c2, c3, c4, c5, c6⟩ := close_run env s d hD hI hC
      simp [Consistent, phase, hC, hI] at h3 h4 ⊢
      simp [c1, c2, c4, c5, h3, h4]
    · rw [close_skip env s (by simpa using g)]
      exact ⟨⟨h1, h2, h3, h4⟩, le_refl _⟩

theorem initial_consistent : Consistent Logger.initial := by
  simp [Consistent, Logger.initial, phase]

theorem runCalls_consistent (cs : List Call) : ∀ (s : Logger), Consistent s →
    Consistent (runCalls cs s) ∧ phase s ≤ phase (runCalls cs s) := by
  induction cs with
  | nil => intro s h; exact ⟨h, le_refl _⟩
  | cons c cs ih =>
    intro s h
    obtain ⟨r1, r2⟩ := step_consistent c s h
    obtain ⟨r3, r4⟩ := ih (c.step s) r1
    exact ⟨r3, le_trans r2 r4⟩

theorem runCalls_append (cs ds : List Call) : ∀ (s : Logger),
    runCalls (cs ++ ds) s = runCalls ds (runCalls cs s) := by
  induction cs with
  | nil => intro s; rfl
  | cons c cs ih => intro s; simp only [List.cons_append, runCalls]; exact ih _

/-! ## Rows -/

theorem emitAll_file (cs : List Emit) : ∀ (s : Logger) (p : String), s.CLOSED = false →
    s.INITIALIZED = true → s.DUMP = some (.file p) →
    (emitAll cs s).fileOut = s.fileOut ++ rows cs ∧ (emitAll cs s).errOut = s.errOut ++ rows cs := by
  induction cs with
  | nil => intro s p _ _ _; simp [emitAll, rows]
  | cons c cs ih =>
    intro s p hC hI hD
    simp only [emitAll]
    rw [handler_open c.env c.type c.data s _ hC hI hD]
    obtain ⟨r1, r2⟩ := ih (fprintf .cout c.row (fprintf (.file p) c.row s)) p
      (by simp [hC]) (by simp [hI]) (by simp [hD])
    simp only [Emit.row] at r1 r2
    rw [r1, r2]
    simp [fprintf, rows, Emit.row, String.append_assoc]

theorem emitAll_cout (cs : List Emit) : ∀ (s : Logger), s.CLOSED = false →
    s.INITIALIZED = true → s.DUMP = some .cout →
    (emitAll cs s).fileOut = s.fileOut ∧ (emitAll cs s).errOut = s.errOut ++ rowsTwice cs := by
  induction cs with
  | nil => intro s _ _ _; simp [emitAll, rowsTwice]
  | cons c cs ih =>
    intro s hC hI hD
    simp only [emitAll]
    rw [handler_open c.env c.type c.data s _ hC hI hD]
    obtain ⟨r1, r2⟩ := ih (fprintf .cout c.row (fprintf .cout c.row s))
      (by simp [hC]) (by simp [hI]) (by simp [hD])
    simp only [Emit.row] at r1 r2
    rw [r1, r2]
    simp [fprintf, rowsTwice, Emit.row, String.append_assoc]

theorem fmtLeft_data (width : Nat) (s : String) :
    (fmtLeft width s).data = s.data ++ List.replicate (width - s.length) ' ' := by
  simp [fmtLeft]

theorem fmtLeft_length (width : Nat) (s : String) :
    (fmtLeft width s).length = max width s.length := by
  simp [fmtLeft, String.length_append]
  omega

theorem fmtLeft_full (width : Nat) (s : String) (h : width ≤ s.length) : fmtLeft width s = s := by
  apply String.ext
  rw [fmtLeft_data, Nat.sub_eq_zero_of_le h]
  simp

theorem log_ne_slog (a b : List Char) :
    a ++ "/QDriverStation.log".data ≠ b ++ "qdslog".data := by
  intro h
  have h1 : (a ++ "/QDriverStation".data) ++ ".log".data = (b ++ "qd".data) ++ "slog".data := by
    simpa using h
  have h2 := (List.append_inj' h1 rfl).2
  exact absurd h2 (by decide)

theorem headerBlock_tail (env : Env) : ∃ pre, headerBlock env
    = pre ++ PRINT_FMT "ELAPSED TIME" "ERROR LEVEL" "MESSAGE" ++ (REPEAT "-" 72 ++ "\n") := by
  refine ⟨REPEAT "-" 72 ++ "\n" ++ "START OF LOG" ++ "\n" ++ REPEAT "-" 72
    ++ "\n" ++ "\n" ++ "Log created on:      " ++ env.headerStamp ++ "\n"
    ++ "Operating System:    " ++ env.sysName ++ "\n"
    ++ "Application name:    " ++ env.appName ++ "\n"
    ++ "Application version: " ++ env.appVersion ++ "\n\n" ++ REPEAT "-" 72 ++ "\n", ?_⟩
  simp only [headerBlock, String.append_assoc]

theorem append_ne_empty (a b : String) (h : a ≠ "") : a ++ b ≠ "" := by
  intro e
  have d := congrArg String.data e
  simp only [String.data_append] at d
  exact h (String.ext (List.append_eq_nil.mp d).1)

theorem DS_GetStaticIp_ne_empty (net team host : Int) : DS_GetStaticIp net team host ≠ "" := by
  intro e
  have l := congrArg String.length e
  have e1 : ".".length = 1 := rfl
  have e0 : "".length = 0 := rfl
  simp only [DS_GetStaticIp, String.length_append, e1, e0] at l
  omega

set_option maxRecDepth 20000

/-! ## The claims -/

/-- C1 (as amended): for every non-empty sequence of `DS_MESSAGE_HANDLER` calls issued from the
initial state with no close in between, when `fopen` succeeds on the first call the
file holds exactly the header block of the first call followed by the rows of the
calls in call order (and `stderr` holds the rows); when `fopen` fails, `DUMP` is
`stderr`, nothing reaches a file, and `stderr` holds the header block followed by
every row twice. -/
theorem emitAll_header_then_rows (c : Emit) (cs : List Emit) :
    if c.env.fopenOk then
      (emitAll (c :: cs) Logger.initial).fileOut = headerBlock c.env ++ rows (c :: cs)
        ∧ (emitAll (c :: cs) Logger.initial).errOut = rows (c :: cs)
    else
      (emitAll (c :: cs) Logger.initial).fileOut = ""
        ∧ (emitAll (c :: cs) Logger.initial).errOut
            = headerBlock c.env ++ rowsTwice (c :: cs) := by
  have e : emitAll (c :: cs) Logger.initial
      = emitAll (c :: cs) (INIT_LOGGER c.env Logger.initial) := by
    simp only [emitAll]
    rw [handler_first c.env c.type c.data Logger.initial rfl rfl]
  obtain ⟨c1, c2, c3, -⟩ := INIT_LOGGER_ctl c.env Logger.initial
  rw [e]
  cases h : c.env.fopenOk with
  | true =>
    rw [h] at c3
    obtain ⟨r1, r2⟩ := emitAll_file (c :: cs) (INIT_LOGGER c.env Logger.initial) _ c1 c2 c3
    rw [r1, r2, INIT_LOGGER_ok c.env Logger.initial h]
    simp [Logger.initial]
  | false =>
    rw [h] at c3
    obtain ⟨r1, r2⟩ := emitAll_cout (c :: cs) (INIT_LOGGER c.env Logger.initial) c1 c2 c3
    rw [r1, r2, INIT_LOGGER_fallback c.env Logger.initial h]
    simp [Logger.initial]

/-- C1 fails as stated: after zero calls no byte has been written, so the file sink
does not hold a header block; and when `fopen` fails the stream `DUMP` points to
holds each row twice. -/
theorem emitAll_header_then_rows_counterexample :
    (emitAll [] Logger.initial).fileOut = ""
    ∧ (emitAll [] Logger.initial).fileOut ≠ headerBlock sampleEnv ++ rows []
    ∧ dumpOut (emitAll [sampleFallback] Logger.initial)
        ≠ headerBlock sampleFallback.env ++ rows [sampleFallback] := by
  refine ⟨rfl, ?_, ?_⟩ <;> decide

/-- C2: a `DS_MESSAGE_HANDLER` call made while `CLOSED` is true returns the state it was
given: no byte is appended to the file, none to `stderr`, and no variable changes. -/
theorem handler_after_close (env : Env) (type : QtMsgType) (data : String) (s : Logger)
    (h : s.CLOSED = true) :
    DS_MESSAGE_HANDLER env type data s = s
    ∧ (DS_MESSAGE_HANDLER env type data s).fileOut = s.fileOut
    ∧ (DS_MESSAGE_HANDLER env type data s).errOut = s.errOut := by
  rw [handler_closed env type data s h]
  exact ⟨rfl, rfl, rfl⟩

/-- Witness for C2: a message sent after the sample session was closed. -/
theorem handler_after_close_witness :
    sampleClosed.CLOSED = true
    ∧ DS_MESSAGE_HANDLER sampleEnv QtFatalMsg "late" sampleClosed = sampleClosed
    ∧ (DS_MESSAGE_HANDLER sampleEnv QtFatalMsg "late" sampleClosed).fileOut = sampleClosed.fileOut
    ∧ (DS_MESSAGE_HANDLER sampleEnv QtFatalMsg "late" sampleClosed).errOut
        = sampleClosed.errOut :=
  ⟨rfl, handler_after_close sampleEnv QtFatalMsg "late" sampleClosed rfl⟩

/-- C3: `DS_CLOSE_CONSOLE_LOG` is idempotent on every state: a second call returns the state the
first call left (so it calls `fclose` no more), and over any sequence of calls
`fclose` is called at most once. -/
theorem close_idempotent (env1 env2 : Env) (envs : List Env) (s : Logger) :
    DS_CLOSE_CONSOLE_LOG env2 (DS_CLOSE_CONSOLE_LOG env1 s) = DS_CLOSE_CONSOLE_LOG env1 s
    ∧ (DS_CLOSE_CONSOLE_LOG env2 (DS_CLOSE_CONSOLE_LOG env1 s)).fcloseCalls
        = (DS_CLOSE_CONSOLE_LOG env1 s).fcloseCalls
    ∧ (closeAll envs s).fcloseCalls.length ≤ s.fcloseCalls.length + 1 := by
  refine ⟨close_twice env1 env2 s, ?_, closeAll_fclose envs s⟩
  rw [close_twice env1 env2 s]

/-- C4: the time column is `MM:SS.d`: `MM` is `((ms / 1000) / 60) mod 60` and `SS` is
`(ms / 1000) mod 60`, each as two decimal digits, and `d` is the leading decimal digit
of `ms mod 1000`, where `ms` is the elapsed time as a 32-bit unsigned value; 125340 ms
gives `02:05.3`, and 125045 ms gives `02:05.4`. -/
theorem elapsedTime_format (elapsed : Nat) :
    elapsedTime elapsed
      = String.mk
          [Nat.digitChar ((elapsed % 2 ^ 32 / 1000 / 60 % 60) / 10),
           Nat.digitChar ((elapsed % 2 ^ 32 / 1000 / 60 % 60) % 10),
           ':',
           Nat.digitChar ((elapsed % 2 ^ 32 / 1000 % 60) / 10),
           Nat.digitChar ((elapsed % 2 ^ 32 / 1000 % 60) % 10),
           '.',
           Nat.digitChar (leadingDigit (elapsed % 2 ^ 32 % 1000))]
    ∧ elapsedTime 125340 = "02:05.3" ∧ elapsedTime 125045 = "02:05.4" := by
  refine ⟨?_, by decide, by decide⟩
  unfold elapsedTime
  simp only []
  rw [argPadded_two _ (by omega), argPadded_two _ (by omega),
    QString_number_first _ (Nat.mod_lt _ (by decide))]
  rfl

/-- C5: the log number is the decimal text of `count` padded on the left with `0` to four
characters; below 10000 it is exactly the four decimal digits of `count`, from 10000 on
it is the decimal text itself, five characters or more; 9 gives `0009` and 10 gives
`0010`. -/
theorem logNumber_padded (count : Nat) :
    logNumber count = String.mk (List.leftpad 4 '0' (QString_number count).data)
    ∧ (count < 10000 → logNumber count
        = String.mk [Nat.digitChar (count / 1000), Nat.digitChar (count / 100 % 10),
            Nat.digitChar (count / 10 % 10), Nat.digitChar (count % 10)])
    ∧ (10000 ≤ count → logNumber count = QString_number count ∧ 5 ≤ (logNumber count).length)
    ∧ logNumber 9 = "0009" ∧ logNumber 10 = "0010" := by
  refine ⟨?_, ?_, ?_, by decide, by decide⟩
  · apply String.ext
    simp only [List.leftpad, QString_number_data]
    rcases Nat.lt_or_ge count 10 with h | h
    · rw [logNumber_lt_ten count h, toDigits_lt_ten count h]; rfl
    rcases Nat.lt_or_ge count 100 with h2 | h2
    · rw [logNumber_lt_hundred count h h2, toDigits_two count h h2]; rfl
    rcases Nat.lt_or_ge count 1000 with h3 | h3
    · rw [logNumber_lt_thousand count h2 h3, toDigits_three count h2 h3]; rfl
    rw [logNumber_thousand_le count h3, QString_number_data]
    rcases Nat.lt_or_ge count 10000 with h4 | h4
    · rw [toDigits_four count h3 h4]; rfl
    · have := toDigits_length_five count h4
      have e : 4 - (Nat.toDigits 10 count).length = 0 := by omega
      simp [e]
  · intro hlt
    apply String.ext
    rcases Nat.lt_or_ge count 10 with h | h
    · have e1 : count / 1000 = 0 := by omega
      have e2 : count / 100 % 10 = 0 := by omega
      have e3 : count / 10 % 10 = 0 := by omega
      have e4 : count % 10 = count := by omega
      rw [logNumber_lt_ten count h, e1, e2, e3, e4]; rfl
    rcases Nat.lt_or_ge count 100 with h2 | h2
    · have e1 : count / 1000 = 0 := by omega
      have e2 : count / 100 % 10 = 0 := by omega
      have e3 : count / 10 % 10 = count / 10 := by omega
      rw [logNumber_lt_hundred count h h2, e1, e2, e3]; rfl
    rcases Nat.lt_or_ge count 1000 with h3 | h3
    · have e1 : count / 1000 = 0 := by omega
      have e2 : count / 100 % 10 = count / 100 := by omega
      rw [logNumber_lt_thousand count h2 h3, e1, e2]; rfl
    · rw [logNumber_thousand_le count h3, QString_number_data, toDigits_four count h3 hlt]
  · intro hge
    rw [logNumber_thousand_le count (by omega)]
    exact ⟨rfl, by rw [QString_number_length]; exact toDigits_length_five count hge⟩


/-- C6: the level label is defined for every message type: `QtDebugMsg` gives `DEBUG`,
`QtWarningMsg` gives `WARNING`, `QtCriticalMsg` gives `CRITICAL`, `QtFatalMsg` gives `FATAL`,
and every other value, such as 4 or -1, gives `SYSTEM`. -/
theorem levelOf_total (type : QtMsgType) :
    levelOf QtDebugMsg = "DEBUG" ∧ levelOf QtWarningMsg = "WARNING"
    ∧ levelOf QtCriticalMsg = "CRITICAL" ∧ levelOf QtFatalMsg = "FATAL"
    ∧ (type ≠ QtDebugMsg ∧ type ≠ QtWarningMsg ∧ type ≠ QtCriticalMsg ∧ type ≠ QtFatalMsg
        → levelOf type = "SYSTEM")
    ∧ levelOf type ∈ ["DEBUG", "WARNING", "CRITICAL", "FATAL", "SYSTEM"]
    ∧ levelOf 4 = "SYSTEM" ∧ levelOf (-1) = "SYSTEM" := by
  refine ⟨by decide, by decide, by decide, by decide, ?_, ?_, by decide, by decide⟩
  · rintro ⟨h0, h1, h2, h3⟩
    simp [levelOf, h0, h1, h2, h3]
  · unfold levelOf
    split_ifs <;> simp

/-- C7 (as amended): `INIT_LOGGER` calls `fopen` once, on the path `DS_CONSOLE_LOG()`, which is
`QDir::tempPath()` followed by `/QDriverStation.log`; when the call succeeds `DUMP` is
that file, otherwise `stderr`. The numbered path
`<logs directory>/Log NNNN <timestamp>.qdslog` is stored for `DS_LOG_FILE()` and is never
the path that is opened. -/
theorem INIT_LOGGER_opens_console_log (env : Env) (s : Logger) :
    (INIT_LOGGER env s).fopenCalls = s.fopenCalls ++ [DS_CONSOLE_LOG (INIT_LOGGER env s)]
    ∧ DS_CONSOLE_LOG (INIT_LOGGER env s) = env.tempPath ++ "/QDriverStation.log"
    ∧ (INIT_LOGGER env s).DUMP
        = some (if env.fopenOk then FilePtr.file (DS_CONSOLE_LOG (INIT_LOGGER env s))
            else FilePtr.cout)
    ∧ DS_LOG_FILE (INIT_LOGGER env s)
        = DS_LOGS_PATH env ++ "/" ++ "Log " ++ logNumber env.count ++ " " ++ env.fileStamp
            ++ "." ++ "qdslog"
    ∧ DS_CONSOLE_LOG (INIT_LOGGER env s) ≠ DS_LOG_FILE (INIT_LOGGER env s) := by
  have hc : DS_CONSOLE_LOG (INIT_LOGGER env s) = env.tempPath ++ "/QDriverStation.log" := by
    cases h : env.fopenOk with
    | true => rw [INIT_LOGGER_ok env s h]; rfl
    | false => rw [INIT_LOGGER_fallback env s h]; rfl
  have hl : DS_LOG_FILE (INIT_LOGGER env s)
      = DS_LOGS_PATH env ++ "/" ++ "Log " ++ logNumber env.count ++ " " ++ env.fileStamp
          ++ "." ++ "qdslog" := by
    cases h : env.fopenOk with
    | true => rw [INIT_LOGGER_ok env s h]; rfl
    | false => rw [INIT_LOGGER_fallback env s h]; rfl
  obtain ⟨-, -, c3, -, c5, -⟩ := INIT_LOGGER_ctl env s
  refine ⟨by rw [hc, c5], hc, by rw [hc, c3], hl, ?_⟩
  rw [hc, hl]
  intro e
  have d := congrArg String.data e
  simp only [String.data_append] at d
  exact log_ne_slog _ _ d

/-- C7 fails as stated: under the sample environment the persistent path is
`/home/ds/.qdriverstation/Logs/Log 0009 (Jan 02 2016 - 10_20_30).qdslog`, while the one
path passed to `fopen`, and the file `DUMP` points to, is `/tmp/QDriverStation.log`. -/
theorem INIT_LOGGER_opens_log_file_counterexample :
    DS_LOG_FILE (INIT_LOGGER sampleEnv Logger.initial)
      = "/home/ds/.qdriverstation/Logs/Log 0009 (Jan 02 2016 - 10_20_30).qdslog"
    ∧ (INIT_LOGGER sampleEnv Logger.initial).fopenCalls = ["/tmp/QDriverStation.log"]
    ∧ (INIT_LOGGER sampleEnv Logger.initial).DUMP
        = some (FilePtr.file "/tmp/QDriverStation.log")
    ∧ (INIT_LOGGER sampleEnv Logger.initial).DUMP
        ≠ some (FilePtr.file (DS_LOG_FILE (INIT_LOGGER sampleEnv Logger.initial))) := by
  refine ⟨?_, ?_, ?_, ?_⟩ <;> decide

/-- C8: for every team number the address list has exactly 5 entries, the first is
`roboRIO-<team>-FRC.local` (`roboRIO-118-FRC.local` for team 118), the last is
`127.0.0.1`, and no entry is empty, the two results of `DS_GetStaticIp` being non-empty
(as they are for the dotted form `net.te.am.host`). -/
theorem defaultRobotAddress_shape (staticIp3 : Int → Int → Int → String)
    (staticIp2 : Int → Int → String) (team : Int)
    (h3 : staticIp3 172 team 2 ≠ "") (h2 : staticIp2 team 2 ≠ "") :
    (defaultRobotAddress staticIp3 staticIp2 team).length = 5
    ∧ (defaultRobotAddress staticIp3 staticIp2 team).head?
        = some ("roboRIO-" ++ toString team ++ "-FRC.local")
    ∧ (defaultRobotAddress staticIp3 staticIp2 team).getLast? = some "127.0.0.1"
    ∧ (∀ e ∈ defaultRobotAddress staticIp3 staticIp2 team, e ≠ "")
    ∧ (defaultRobotAddress staticIp3 staticIp2 118).head? = some "roboRIO-118-FRC.local"
    ∧ (∀ e ∈ defaultRobotAddress DS_GetStaticIp (DS_GetStaticIp 10) team, e ≠ "") := by
  have main : ∀ (f3 : Int → Int → Int → String) (f2 : Int → Int → String),
      f3 172 team 2 ≠ "" → f2 team 2 ≠ "" → ∀ e ∈ defaultRobotAddress f3 f2 team, e ≠ "" := by
    intro f3 f2 h3 h2 e he
    simp only [defaultRobotAddress, List.nil_append, List.cons_append, List.mem_cons,
      List.mem_singleton, List.not_mem_nil, or_false] at he
    rcases he with rfl | rfl | rfl | rfl | rfl
    · rw [String.append_assoc]; exact append_ne_empty _ _ (by decide)
    · rw [String.append_assoc]; exact append_ne_empty _ _ (by decide)
    · exact h3
    · exact h2
    · decide
  exact ⟨rfl, rfl, rfl, main staticIp3 staticIp2 h3 h2, rfl,
    main DS_GetStaticIp (DS_GetStaticIp 10) (DS_GetStaticIp_ne_empty _ _ _)
      (DS_GetStaticIp_ne_empty _ _ _)⟩

/-- Witness for C8: team 118 with the dotted static addresses. -/
theorem defaultRobotAddress_shape_witness :
    DS_GetStaticIp 172 118 2 ≠ "" ∧ DS_GetStaticIp 10 118 2 ≠ ""
    ∧ (defaultRobotAddress DS_GetStaticIp (DS_GetStaticIp 10) 118).length = 5
    ∧ (defaultRobotAddress DS_GetStaticIp (DS_GetStaticIp 10) 118).head?
        = some ("roboRIO-" ++ toString (118 : Int) ++ "-FRC.local")
    ∧ (defaultRobotAddress DS_GetStaticIp (DS_GetStaticIp 10) 118).getLast? = some "127.0.0.1"
    ∧ (∀ e ∈ defaultRobotAddress DS_GetStaticIp (DS_GetStaticIp 10) 118, e ≠ "")
    ∧ (defaultRobotAddress DS_GetStaticIp (DS_GetStaticIp 10) 118).head?
        = some "roboRIO-118-FRC.local"
    ∧ (∀ e ∈ defaultRobotAddress DS_GetStaticIp (DS_GetStaticIp 10) 118, e ≠ "") :=
  ⟨by decide, by decide,
    defaultRobotAddress_shape DS_GetStaticIp (DS_GetStaticIp 10) 118 (by decide) (by decide)⟩

/-- C9: in an open session `DS_MESSAGE_HANDLER` writes one and the same row to `DUMP` and to
`stderr`: the time, spaces up to 14 characters, a space, the level, spaces up to 13
characters, a space, the message, spaces up to 12 characters, a newline. A field is
always written in full, so a field as long as its width or longer gets no padding.
The header that `INIT_LOGGER` writes ends with the title row in the same layout and a
banner line. -/
theorem row_layout (env : Env) (type : QtMsgType) (data : String) (s : Logger) (d : FilePtr)
    (hC : s.CLOSED = false) (hI : s.INITIALIZED = true) (hD : s.DUMP = some d)
    (time level message : String) :
    DS_MESSAGE_HANDLER env type data s
      = fprintf FilePtr.cout (PRINT_FMT (elapsedTime env.elapsed) (levelOf type) data)
          (fprintf d (PRINT_FMT (elapsedTime env.elapsed) (levelOf type) data) s)
    ∧ (PRINT_FMT time level message).data
        = time.data ++ List.replicate (14 - time.length) ' ' ++ [' ']
          ++ level.data ++ List.replicate (13 - level.length) ' ' ++ [' ']
          ++ message.data ++ List.replicate (12 - message.length) ' ' ++ ['\n']
    ∧ (PRINT_FMT time level message).length
        = max 14 time.length + 1 + max 13 level.length + 1 + max 12 message.length + 1
    ∧ (14 ≤ time.length → 13 ≤ level.length → 12 ≤ message.length →
        PRINT_FMT time level message = time ++ " " ++ level ++ " " ++ message ++ "\n")
    ∧ (∃ pre, dumpOut (INIT_LOGGER env s)
        = pre ++ PRINT_FMT "ELAPSED TIME" "ERROR LEVEL" "MESSAGE" ++ (REPEAT "-" 72 ++ "\n"))
    ∧ PRINT_FMT "ELAPSED TIME" "ERROR LEVEL" "MESSAGE"
        = "ELAPSED TIME   ERROR LEVEL   MESSAGE     \n" := by
  refine ⟨handler_open env type data s d hC hI hD, ?_, ?_, ?_, ?_, by decide⟩
  · simp [PRINT_FMT, fmtLeft_data]
  · have e1 : " ".length = 1 := rfl
    have e2 : "\n".length = 1 := rfl
    simp only [PRINT_FMT, String.length_append, fmtLeft_length, e1, e2]
  · intro h1 h2 h3
    simp only [PRINT_FMT, fmtLeft_full _ _ h1, fmtLeft_full _ _ h2, fmtLeft_full _ _ h3]
  · obtain ⟨pre, hp⟩ := headerBlock_tail env
    cases h : env.fopenOk with
    | true =>
      rw [INIT_LOGGER_ok env s h]
      exact ⟨pre, hp⟩
    | false =>
      rw [INIT_LOGGER_fallback env s h]
      refine ⟨s.errOut ++ pre, ?_⟩
      simp only [dumpOut]
      rw [hp]
      simp only [String.append_assoc]

/-- Witness for C9: the open sample session, a warning, and a message longer than its column. -/
theorem row_layout_witness :
    sampleOpen.CLOSED = false ∧ sampleOpen.INITIALIZED = true
    ∧ sampleOpen.DUMP = some (FilePtr.file "/tmp/QDriverStation.log")
    ∧ DS_MESSAGE_HANDLER sampleEnv QtWarningMsg "battery low" sampleOpen
      = fprintf FilePtr.cout
          (PRINT_FMT (elapsedTime sampleEnv.elapsed) (levelOf QtWarningMsg) "battery low")
          (fprintf (FilePtr.file "/tmp/QDriverStation.log")
            (PRINT_FMT (elapsedTime sampleEnv.elapsed) (levelOf QtWarningMsg) "battery low")
            sampleOpen)
    ∧ (PRINT_FMT "02:05.3" "WARNING" "robot code crashed").data
        = "02:05.3".data ++ List.replicate (14 - "02:05.3".length) ' ' ++ [' ']
          ++ "WARNING".data ++ List.replicate (13 - "WARNING".length) ' ' ++ [' ']
          ++ "robot code crashed".data
          ++ List.replicate (12 - "robot code crashed".length) ' ' ++ ['\n']
    ∧ (PRINT_FMT "02:05.3" "WARNING" "robot code crashed").length
        = max 14 "02:05.3".length + 1 + max 13 "WARNING".length + 1
          + max 12 "robot code crashed".length + 1
    ∧ (14 ≤ "02:05.3".length → 13 ≤ "WARNING".length → 12 ≤ "robot code crashed".length →
        PRINT_FMT "02:05.3" "WARNING" "robot code crashed"
          = "02:05.3" ++ " " ++ "WARNING" ++ " " ++ "robot code crashed" ++ "\n")
    ∧ (∃ pre, dumpOut (INIT_LOGGER sampleEnv sampleOpen)
        = pre ++ PRINT_FMT "ELAPSED TIME" "ERROR LEVEL" "MESSAGE" ++ (REPEAT "-" 72 ++ "\n"))
    ∧ PRINT_FMT "ELAPSED TIME" "ERROR LEVEL" "MESSAGE"
        = "ELAPSED TIME   ERROR LEVEL   MESSAGE     \n" :=
  ⟨rfl, rfl, rfl,
    row_layout sampleEnv QtWarningMsg "battery low" sampleOpen
      (FilePtr.file "/tmp/QDriverStation.log") rfl rfl rfl "02:05.3" "WARNING"
      "robot code crashed"⟩

/-- C10: along every run from the initial state, `INIT_LOGGER` runs at most once and `fopen` is
called at most once; once `INIT_LOGGER` has run, no later state has both `INITIALIZED` and
`CLOSED` false; once `CLOSED` is true it stays true; and the phase (uninitialised, open,
closed) never decreases. -/
theorem session_never_restarts (cs ds : List Call) :
    (runCalls (cs ++ ds) Logger.initial).timerStarts ≤ 1
    ∧ (runCalls (cs ++ ds) Logger.initial).fopenCalls.length ≤ 1
    ∧ (0 < (runCalls cs Logger.initial).timerStarts →
        ¬ ((runCalls (cs ++ ds) Logger.initial).INITIALIZED = false
            ∧ (runCalls (cs ++ ds) Logger.initial).CLOSED = false))
    ∧ ((runCalls cs Logger.initial).CLOSED = true →
        (runCalls (cs ++ ds) Logger.initial).CLOSED = true)
    ∧ phase (runCalls cs Logger.initial) ≤ phase (runCalls (cs ++ ds) Logger.initial) := by
  obtain ⟨r1, -⟩ := runCalls_consistent cs Logger.initial initial_consistent
  rw [runCalls_append]
  obtain ⟨r2, m⟩ := runCalls_consistent ds (runCalls cs Logger.initial) r1
  generalize runCalls ds (runCalls cs Logger.initial) = s2 at r2 m ⊢
  generalize runCalls cs Logger.initial = s1 at r1 m ⊢
  obtain ⟨-, -, a3, -⟩ := r1
  obtain ⟨-, -, b3, b4⟩ := r2
  have t2 : s2.timerStarts ≤ 1 := by rw [b3]; split <;> omega
  refine ⟨t2, by omega, ?_, ?_, m⟩
  · intro h ⟨hI, hC⟩
    have p2 : phase s2 = 0 := by simp [phase, hI, hC]
    have p1 : phase s1 ≠ 0 := by
      intro p; rw [a3, p] at h; simp at h
    omega
  · intro h
    have p1 : phase s1 = 2 := by simp [phase, h]
    have p2 : 2 ≤ phase s2 := by omega
    unfold phase at p2
    cases hC : s2.CLOSED with
    | true => rfl
    | false =>
      rw [hC] at p2
      simp only [Bool.false_eq_true, if_false] at p2
      split at p2 <;> omega

end LibDS
